import Mathlib

/-!
Shallow embedding of SimpleRssMailer (src/function/simple_rss_mailer.py and
src/simple_rss_mailer.py; the two copies of the core pipeline are identical
in the behavior modelled here).

External collaborators (feedparser.parse, urllib hostname parsing, hashlib
md5 hexdigest, the network download, SNS publish success) are modelled as
parameters of a `SyncEnv` record; the S3 bucket and the sequence of SNS
publications are an explicit `World` state threaded through the functions.
Python exceptions are modelled with `Except`, and every operation returns
the world it left behind so that frame properties about the store are
expressible on the error paths too.
-/

namespace SimpleRssMailer

/-- Errors raised by the modelled code: `keyError` is Python's KeyError from
reading a missing dict key (the spec calls it MalformedEntry), `valueError`
is the ValueError raised by `calculate_s3_key`, `notifyError` a failed SNS
publish, `fetchError` a failed download. -/
inductive RssError where
  | keyError
  | valueError
  | notifyError
  | fetchError
deriving Repr, DecidableEq

/-- A parsed feed entry as produced by feedparser: the explicit id and the
link may each be absent (`none`); an id that is present but empty is
`some ""`. -/
structure FeedEntry where
  id : Option String
  link : Option String
  title : String
  published : String
deriving Repr, DecidableEq

/-- Reading key `k` of a feedparser entry dict: returns the value when the
key is present, raises KeyError otherwise. -/
def dict_get (v : Option String) : Except RssError String :=
  match v with
  | some s => Except.ok s
  | none => Except.error RssError.keyError

/-- SimpleRssMailer.get_rss_entry_id: `if 'id' in entry: return entry['id']
else: return entry['link']` — the `else` branch raises KeyError when the
entry has no link either. -/
def get_rss_entry_id (entry : FeedEntry) : Except RssError String :=
  if entry.id.isSome then dict_get entry.id else dict_get entry.link

/-- True when `get_rss_entry_id` succeeds on the entry. -/
def entry_idOk (entry : FeedEntry) : Bool :=
  match get_rss_entry_id entry with
  | Except.ok _ => true
  | Except.error _ => false

/-- The identity `get_rss_entry_id` returns on entries where it succeeds
(defaulting to `""` where it raises; only used under `entry_idOk`). -/
def entry_id_d (entry : FeedEntry) : String :=
  match get_rss_entry_id entry with
  | Except.ok i => i
  | Except.error _ => ""

/-- The first loop of diff_rss_feeds: `for entry in old_feed.entries:
old_items_ids.add(self.get_rss_entry_id(entry))` — collects the identity of
every old entry, propagating a KeyError from any entry. -/
def collect_ids : List FeedEntry → Except RssError (List String)
  | [] => Except.ok []
  | entry :: rest =>
    match get_rss_entry_id entry with
    | Except.error e => Except.error e
    | Except.ok entry_id =>
      match collect_ids rest with
      | Except.error e => Except.error e
      | Except.ok ids => Except.ok (entry_id :: ids)

/-- The second loop of diff_rss_feeds: keeps each new entry whose identity
is not in the old-identity set, preserving order, propagating a KeyError
from any entry. -/
def filter_new (old_items_ids : List String) : List FeedEntry → Except RssError (List FeedEntry)
  | [] => Except.ok []
  | entry :: rest =>
    match get_rss_entry_id entry with
    | Except.error e => Except.error e
    | Except.ok entry_id =>
      match filter_new old_items_ids rest with
      | Except.error e => Except.error e
      | Except.ok new_entries =>
        if entry_id ∈ old_items_ids then Except.ok new_entries
        else Except.ok (entry :: new_entries)

/-- SimpleRssMailer.diff_rss_feeds, with feedparser.parse abstracted as the
function `parse`: parse both snapshots, build the set of old identities,
return the new entries whose identity is absent from it, in order. -/
def diff_rss_feeds (parse : String → List FeedEntry)
    (old_feed_str new_feed_str : String) : Except RssError (List FeedEntry) :=
  match collect_ids (parse old_feed_str) with
  | Except.error e => Except.error e
  | Except.ok old_items_ids => filter_new old_items_ids (parse new_feed_str)

/-- Python str.lower, modelled character by character (hostnames are
ASCII). -/
def str_lower (s : String) : String := ⟨s.data.map Char.toLower⟩

/-- RssStateHandler.calculate_s3_key, with urlparse's `.hostname` (which is
`None` when the URL has no network location) abstracted as `hostname` and
hashlib md5's hexdigest abstracted as `md5hex`: raises ValueError when the
hostname is absent, otherwise returns
`f"{s3_path}/{url.hostname.lower()}-{hash}.xml"` where `hash` is the last
four characters of the hexdigest of the full URL. -/
def calculate_s3_key (hostname : String → Option String) (md5hex : String → String)
    (s3_path : String) (rss_url : String) : Except RssError String :=
  match hostname rss_url with
  | none => Except.error RssError.valueError
  | some h =>
    Except.ok (s3_path ++ "/" ++ str_lower h ++ "-" ++ (md5hex rss_url).takeRight 4 ++ ".xml")

/-- The S3 bucket contents: an association list from S3 key to stored blob
(later writes shadow earlier ones). -/
abbrev Store := List (String × String)

/-- An S3 get_object that yields the stored blob, or `""` on NoSuchKey, as
RssStateHandler.get_rss_feed does. -/
def store_get (store : Store) (key : String) : String :=
  match List.lookup key store with
  | some v => v
  | none => ""

/-- An S3 put_object: overwrites or creates the key. -/
def store_put (store : Store) (key : String) (blob : String) : Store :=
  (key, blob) :: store

/-- The externally observable state of one run: the S3 bucket and the list
of SNS notifications published so far, oldest first. -/
structure World where
  store : Store
  notifications : List FeedEntry
deriving Repr, DecidableEq

/-- The modelled collaborators: URL hostname parsing, md5 hexdigest, the
configured S3 path, the network download (may raise), feedparser.parse, and
whether the SNS publish of a given entry succeeds. -/
structure SyncEnv where
  hostname : String → Option String
  md5hex : String → String
  s3_path : String
  download : String → Except RssError String
  parse : String → List FeedEntry
  notifyOk : FeedEntry → Bool

/-- RssNotifier.notify: publishes one entry to the SNS topic; on success
the notification is appended to the world's log, on failure NotifyError is
raised and nothing is published. -/
def notify (env : SyncEnv) (w : World) (entry : FeedEntry) : Except RssError Unit × World :=
  if env.notifyOk entry then
    (Except.ok (), { w with notifications := w.notifications ++ [entry] })
  else (Except.error RssError.notifyError, w)

/-- The notify loop of process_rss_feed: notifies the entries of the list
front to back, stopping at the first failure. -/
def notify_loop (env : SyncEnv) (w : World) : List FeedEntry → Except RssError Unit × World
  | [] => (Except.ok (), w)
  | entry :: rest =>
    match notify env w entry with
    | (Except.error e, w2) => (Except.error e, w2)
    | (Except.ok _, w2) => notify_loop env w2 rest

/-- RssStateHandler.get_rss_feed: computes the S3 key for the URL (which may
raise ValueError) and reads the stored blob, `""` when absent. -/
def get_rss_feed (env : SyncEnv) (store : Store) (rss_url : String) : Except RssError String :=
  match calculate_s3_key env.hostname env.md5hex env.s3_path rss_url with
  | Except.error e => Except.error e
  | Except.ok key => Except.ok (store_get store key)

/-- RssStateHandler.save_rss_feed: computes the S3 key for the URL (which
may raise ValueError) and overwrites the stored blob. -/
def save_rss_feed (env : SyncEnv) (store : Store) (rss_url rss_blob : String) :
    Except RssError Store :=
  match calculate_s3_key env.hostname env.md5hex env.s3_path rss_url with
  | Except.error e => Except.error e
  | Except.ok key => Except.ok (store_put store key rss_blob)

/-- SimpleRssMailer.process_rss_feed: download the feed, read the previous
snapshot, diff; if there are no new entries return 0 without saving;
otherwise notify the new entries in reversed (oldest-first) order, save the
new snapshot, and return the number of new entries. Any raised error
propagates, leaving the world as it was at that point. -/
def process_rss_feed (env : SyncEnv) (w : World) (rss_url : String) :
    Except RssError Nat × World :=
  match env.download rss_url with
  | Except.error e => (Except.error e, w)
  | Except.ok new_rss_feed =>
    match get_rss_feed env w.store rss_url with
    | Except.error e => (Except.error e, w)
    | Except.ok old_rss_feed =>
      match diff_rss_feeds env.parse old_rss_feed new_rss_feed with
      | Except.error e => (Except.error e, w)
      | Except.ok new_entries =>
        if new_entries.length = 0 then (Except.ok 0, w)
        else
          match notify_loop env w new_entries.reverse with
          | (Except.error e, w2) => (Except.error e, w2)
          | (Except.ok _, w2) =>
            match save_rss_feed env w2.store rss_url new_rss_feed with
            | Except.error e => (Except.error e, w2)
            | Except.ok store2 => (Except.ok new_entries.length, { w2 with store := store2 })

/-- The loop of check_feeds: `for rss_url in rss_urls: new_articles +=
srs.process_rss_feed(rss_url)` — an exception from any feed propagates and
aborts the batch. -/
def check_feeds_go (env : SyncEnv) (w : World) (acc : Nat) :
    List String → Except RssError Nat × World
  | [] => (Except.ok acc, w)
  | rss_url :: rest =>
    match process_rss_feed env w rss_url with
    | (Except.error e, w2) => (Except.error e, w2)
    | (Except.ok n, w2) => check_feeds_go env w2 (acc + n) rest

/-- check_feeds (src/function/simple_rss_mailer.py): starts the counter at
0 and runs the feeds in list order. -/
def check_feeds (env : SyncEnv) (w : World) (rss_urls : List String) :
    Except RssError Nat × World :=
  check_feeds_go env w 0 rss_urls

/-- Modelled from the spec (BatchRunner contract, §4.4): the list of
per-feed new-entry counts obtained by calling sync once per URL in list
order, threading the world; defined (`some`) exactly when every sync
succeeds. Spec-side view used to state the refinement claim about
check_feeds. -/
def spec_sync_counts (env : SyncEnv) (w : World) :
    List String → Option (List Nat × World)
  | [] => some ([], w)
  | rss_url :: rest =>
    match process_rss_feed env w rss_url with
    | (Except.error _, _) => none
    | (Except.ok n, w2) =>
      match spec_sync_counts env w2 rest with
      | none => none
      | some (cs, w3) => some (n :: cs, w3)

/-! Concrete fixtures used by witnesses and counterexamples. -/

deriving instance DecidableEq for Except

/-- Entry A of the example feeds. -/
def exEntryA : FeedEntry :=
  { id := some "urn:a", link := some "http://example.com/a", title := "A", published := "d1" }

/-- Entry B of the example feeds. -/
def exEntryB : FeedEntry :=
  { id := some "urn:b", link := some "http://example.com/b", title := "B", published := "d2" }

/-- Entry C of the example feeds. -/
def exEntryC : FeedEntry :=
  { id := some "urn:c", link := some "http://example.com/c", title := "C", published := "d3" }

/-- An entry whose explicit id is present but empty. -/
def exEntryEmptyId : FeedEntry :=
  { id := some "", link := some "http://example.com/a", title := "t", published := "p" }

/-- An entry with no explicit id, only a link. -/
def exEntryNoId : FeedEntry :=
  { id := none, link := some "http://example.com/a", title := "t", published := "p" }

/-- A concrete stand-in for feedparser.parse over a few fixed snapshot
texts. -/
def exParse : String → List FeedEntry := fun s =>
  if s = "OLD" then [exEntryA, exEntryB]
  else if s = "NEW" then [exEntryC, exEntryB, exEntryA]
  else if s = "DUP" then [exEntryC, exEntryC, exEntryA]
  else []

/-- A concrete md5 hexdigest stand-in. -/
def exMd5 : String → String := fun _ => "0123456789abcdef0123456789abcdef"

/-! Helper lemmas shared by the proofs. -/

/-- On an entry where `entry_idOk` holds, `get_rss_entry_id` returns
`entry_id_d` of it. -/
theorem get_rss_entry_id_of_idOk (e : FeedEntry) (h : entry_idOk e = true) :
    get_rss_entry_id e = Except.ok (entry_id_d e) := by
  unfold entry_idOk at h
  unfold entry_id_d
  cases hg : get_rss_entry_id e <;> simp_all

/-- When every old entry has a defined identity, collecting the old ids
yields exactly the identities in order. -/
theorem collect_ids_of_idOk (l : List FeedEntry) (h : l.all entry_idOk = true) :
    collect_ids l = Except.ok (l.map entry_id_d) := by
  induction l with
  | nil => rfl
  | cons e rest ih =>
    rw [List.all_cons, Bool.and_eq_true] at h
    unfold collect_ids
    rw [get_rss_entry_id_of_idOk e h.1, ih h.2]
    rfl

/-- When every new entry has a defined identity, the second loop of the
diff returns exactly the entries whose identity is outside the old set,
preserving order. -/
theorem filter_new_of_idOk (ids : List String) (l : List FeedEntry)
    (h : l.all entry_idOk = true) :
    filter_new ids l =
      Except.ok (l.filter (fun e => decide (entry_id_d e ∉ ids))) := by
  induction l with
  | nil => rfl
  | cons e rest ih =>
    rw [List.all_cons, Bool.and_eq_true] at h
    unfold filter_new
    rw [get_rss_entry_id_of_idOk e h.1, ih h.2]
    by_cases hm : entry_id_d e ∈ ids <;> simp [hm, List.filter_cons]

/-- The diff, under defined identities on both sides, is the order
preserving filter of the new entries by non-membership of their identity
in the old identity set. -/
theorem diff_eq_filter (parse : String → List FeedEntry) (old_feed_str new_feed_str : String)
    (hold : (parse old_feed_str).all entry_idOk = true)
    (hnew : (parse new_feed_str).all entry_idOk = true) :
    diff_rss_feeds parse old_feed_str new_feed_str =
      Except.ok ((parse new_feed_str).filter
        (fun e => decide (entry_id_d e ∉ (parse old_feed_str).map entry_id_d))) := by
  unfold diff_rss_feeds
  rw [collect_ids_of_idOk _ hold]
  exact filter_new_of_idOk _ _ hnew

/-- A single notify never touches the store, whether it succeeds or
fails. -/
theorem notify_store_eq (env : SyncEnv) (w : World) (e : FeedEntry) :
    (notify env w e).snd.store = w.store := by
  unfold notify
  by_cases h : env.notifyOk e <;> simp [h]

/-- The notify loop never touches the store, whether it completes or stops
at a failing entry. -/
theorem notify_loop_store_eq (env : SyncEnv) (l : List FeedEntry) :
    ∀ w : World, (notify_loop env w l).snd.store = w.store := by
  induction l with
  | nil => intro w; rfl
  | cons e rest ih =>
    intro w
    have hstore := notify_store_eq env w e
    unfold notify_loop
    cases hn : notify env w e with
    | mk r w2 =>
      rw [hn] at hstore
      cases r
      · exact hstore
      · rw [ih w2]
        exact hstore

/-- When every entry of the list publishes successfully, the notify loop
succeeds and appends exactly the list, in order, to the notification
log. -/
theorem notify_loop_all_ok (env : SyncEnv) (l : List FeedEntry) :
    ∀ w : World, l.all env.notifyOk = true →
      notify_loop env w l =
        (Except.ok (), { w with notifications := w.notifications ++ l }) := by
  induction l with
  | nil => intro w _; simp [notify_loop]
  | cons e rest ih =>
    intro w h
    rw [List.all_cons, Bool.and_eq_true] at h
    unfold notify_loop notify
    rw [h.1]
    simp only [if_true]
    rw [ih _ h.2]
    simp

/-- C4: diff(old, new) returns exactly the entries of the new feed whose
identity is not among the identities of the old feed's entries, in the new
feed's original order and without self-deduplication (each new entry whose
identity is outside the old set is individually returned), provided every
entry on both sides has a defined identity. -/
theorem diff_rss_feeds_new_by_identity (parse : String → List FeedEntry)
    (old_feed_str new_feed_str : String)
    (hold : (parse old_feed_str).all entry_idOk = true)
    (hnew : (parse new_feed_str).all entry_idOk = true) :
    diff_rss_feeds parse old_feed_str new_feed_str =
      Except.ok ((parse new_feed_str).filter
        (fun e => decide (entry_id_d e ∉ (parse old_feed_str).map entry_id_d))) :=
  diff_eq_filter parse old_feed_str new_feed_str hold hnew

/-- Witness for C4: old feed parses to [A, B], new feed to [C, C, A]; the
diff returns both copies of C, in order. -/
theorem diff_rss_feeds_new_by_identity_witness :
    diff_rss_feeds exParse "OLD" "DUP" = Except.ok [exEntryC, exEntryC] :=
  diff_rss_feeds_new_by_identity exParse "OLD" "DUP" (by decide) (by decide)

/-- C6 counterexample: on an entry whose explicit id is present but empty
and whose link is present, get_rss_entry_id returns the empty id, not the
link — the claim says a present-but-empty id falls back to the link. -/
theorem get_rss_entry_id_empty_id_cex :
    exEntryEmptyId.id = some "" ∧ exEntryEmptyId.link = some "http://example.com/a" ∧
    get_rss_entry_id exEntryEmptyId = Except.ok "" ∧
    get_rss_entry_id exEntryEmptyId ≠ Except.ok "http://example.com/a" := by
  refine ⟨rfl, rfl, rfl, ?_⟩
  decide

/-- C6 (amended): get_rss_entry_id returns the explicit id whenever the id
field is present — even when it is the empty string — otherwise returns
the link, and raises a KeyError (the spec's MalformedEntry) when neither
field is present. -/
theorem get_rss_entry_id_cases (e : FeedEntry) :
    (∀ i, e.id = some i → get_rss_entry_id e = Except.ok i) ∧
    (e.id = none → ∀ l, e.link = some l → get_rss_entry_id e = Except.ok l) ∧
    (e.id = none → e.link = none → get_rss_entry_id e = Except.error RssError.keyError) := by
  refine ⟨?_, ?_, ?_⟩
  · intro i hi
    simp [get_rss_entry_id, hi, dict_get]
  · intro hi l hl
    simp [get_rss_entry_id, hi, hl, dict_get]
  · intro hi hl
    simp [get_rss_entry_id, hi, hl, dict_get]

/-- Witness for C6 at a concrete entry with no explicit id: the identity
is the link. -/
theorem get_rss_entry_id_cases_witness :
    get_rss_entry_id exEntryNoId = Except.ok "http://example.com/a" :=
  (get_rss_entry_id_cases exEntryNoId).2.1 rfl "http://example.com/a" rfl

/-- C7: diffing a snapshot against itself yields no new entries, provided
every entry of the parsed snapshot has a defined identity. -/
theorem diff_rss_feeds_idempotent (parse : String → List FeedEntry) (feed : String)
    (h : (parse feed).all entry_idOk = true) :
    diff_rss_feeds parse feed feed = Except.ok [] := by
  rw [diff_eq_filter parse feed feed h h]
  congr 1
  rw [List.filter_eq_nil_iff]
  intro e he
  simp only [decide_eq_true_eq, not_not]
  exact List.mem_map.mpr ⟨e, he, rfl⟩

/-- Witness for C7 at a concrete snapshot with three entries. -/
theorem diff_rss_feeds_idempotent_witness :
    diff_rss_feeds exParse "NEW" "NEW" = Except.ok [] :=
  diff_rss_feeds_idempotent exParse "NEW" (by decide)

/-- C8: calculate_s3_key is deterministic (two calls with the same
arguments agree) and, whenever the URL's hostname parses, returns the path
prefix, a slash, the lowercased hostname, a dash, the last four characters
of the md5 hexdigest of the full URL, and the ".xml" suffix. -/
theorem calculate_s3_key_deterministic_format (hostname : String → Option String)
    (md5hex : String → String) (s3_path rss_url h : String)
    (hh : hostname rss_url = some h) :
    calculate_s3_key hostname md5hex s3_path rss_url =
        calculate_s3_key hostname md5hex s3_path rss_url ∧
      calculate_s3_key hostname md5hex s3_path rss_url =
        Except.ok (s3_path ++ "/" ++ str_lower h ++ "-" ++
          (md5hex rss_url).takeRight 4 ++ ".xml") := by
  refine ⟨rfl, ?_⟩
  unfold calculate_s3_key
  rw [hh]

/-- Witness for C8 at a concrete URL, hostname and digest. -/
theorem calculate_s3_key_deterministic_format_witness :
    calculate_s3_key (fun _ => some "Example.COM") exMd5 "rss" "http://Example.COM/feed" =
        calculate_s3_key (fun _ => some "Example.COM") exMd5 "rss" "http://Example.COM/feed" ∧
      calculate_s3_key (fun _ => some "Example.COM") exMd5 "rss" "http://Example.COM/feed" =
        Except.ok "rss/example.com-cdef.xml" := by
  have h := calculate_s3_key_deterministic_format (fun _ => some "Example.COM") exMd5 "rss"
    "http://Example.COM/feed" "Example.COM" rfl
  exact ⟨h.1, h.2.trans (by decide)⟩

/-- C10: when the URL's hostname cannot be determined, calculate_s3_key
raises ValueError instead of returning a key. -/
theorem calculate_s3_key_missing_hostname (hostname : String → Option String)
    (md5hex : String → String) (s3_path rss_url : String)
    (h : hostname rss_url = none) :
    calculate_s3_key hostname md5hex s3_path rss_url = Except.error RssError.valueError := by
  unfold calculate_s3_key
  rw [h]

/-- Witness for C10 at a URL with no network location. -/
theorem calculate_s3_key_missing_hostname_witness :
    calculate_s3_key (fun _ => none) exMd5 "rss" "nohost" = Except.error RssError.valueError :=
  calculate_s3_key_missing_hostname _ exMd5 "rss" "nohost" rfl

/-! Orchestrator fixtures. -/

/-- A concrete environment: downloading always yields the "NEW" snapshot,
every publish succeeds. -/
def exEnv : SyncEnv :=
  { hostname := fun _ => some "example.com"
    md5hex := exMd5
    s3_path := "rss"
    download := fun _ => Except.ok "NEW"
    parse := exParse
    notifyOk := fun _ => true }

/-- The example environment with a notifier that fails on entry B. -/
def exEnvNotifyFail : SyncEnv :=
  { exEnv with notifyOk := fun e => !(e.id == some "urn:b") }

/-- The example feed URL. -/
def exUrl : String := "http://example.com/feed"

/-- The S3 key of the example feed URL in the example environment. -/
def exKey : String := "rss/example.com-cdef.xml"

/-- An empty world: no stored snapshots, no notifications sent. -/
def exWorld : World := { store := [], notifications := [] }

/-- A world already holding the "OLD" snapshot of the example feed. -/
def exWorldOld : World := { store := [(exKey, "OLD")], notifications := [] }

/-- A world already holding the "NEW" snapshot of the example feed. -/
def exWorldNew : World := { store := [(exKey, "NEW")], notifications := [] }

/-! Orchestrator helper lemmas. -/

/-- The success path of process_rss_feed: when the download, the state
read, the diff, every publish and the key computation succeed and new
entries exist, the run notifies the new entries in reversed order, saves
the new snapshot under the key and returns the number of new entries. -/
theorem process_success_run (env : SyncEnv) (w : World) (rss_url nf oldf : String)
    (entries : List FeedEntry) (key : String)
    (hdl : env.download rss_url = Except.ok nf)
    (hget : get_rss_feed env w.store rss_url = Except.ok oldf)
    (hdiff : diff_rss_feeds env.parse oldf nf = Except.ok entries)
    (hne : entries ≠ [])
    (hnot : entries.all env.notifyOk = true)
    (hkey : calculate_s3_key env.hostname env.md5hex env.s3_path rss_url = Except.ok key) :
    process_rss_feed env w rss_url =
      (Except.ok entries.length,
        { store := store_put w.store key nf,
          notifications := w.notifications ++ entries.reverse }) := by
  have hrev : entries.reverse.all env.notifyOk = true := by
    rw [List.all_reverse]
    exact hnot
  have hnl := notify_loop_all_ok env entries.reverse w hrev
  have hlen : ¬ entries.length = 0 := by
    simpa [List.length_eq_zero] using hne
  unfold process_rss_feed
  simp only [hdl, hget, hdiff, if_neg hlen, hnl]
  unfold save_rss_feed
  simp only [hkey]

/-- Every run of process_rss_feed either leaves the store untouched or
returns a count: the store is only written on the fully successful
path. -/
theorem process_store_eq_or_ok (env : SyncEnv) (w : World) (rss_url : String) :
    (process_rss_feed env w rss_url).snd.store = w.store ∨
    ∃ n, (process_rss_feed env w rss_url).fst = Except.ok n := by
  cases hdl : env.download rss_url with
  | error e =>
    left
    simp only [process_rss_feed, hdl]
  | ok nf =>
    cases hget : get_rss_feed env w.store rss_url with
    | error e =>
      left
      simp only [process_rss_feed, hdl, hget]
    | ok oldf =>
      cases hdiff : diff_rss_feeds env.parse oldf nf with
      | error e =>
        left
        simp only [process_rss_feed, hdl, hget, hdiff]
      | ok entries =>
        by_cases hlen : entries.length = 0
        · right
          refine ⟨0, ?_⟩
          simp only [process_rss_feed, hdl, hget, hdiff, if_pos hlen]
        · have hstore := notify_loop_store_eq env entries.reverse w
          cases hnl : notify_loop env w entries.reverse with
          | mk r w2 =>
            rw [hnl] at hstore
            cases r with
            | error e =>
              left
              simp only [process_rss_feed, hdl, hget, hdiff, if_neg hlen, hnl]
              exact hstore
            | ok u =>
              cases hsv : save_rss_feed env w2.store rss_url nf with
              | error e =>
                left
                simp only [process_rss_feed, hdl, hget, hdiff, if_neg hlen, hnl, hsv]
                exact hstore
              | ok store2 =>
                right
                refine ⟨entries.length, ?_⟩
                simp only [process_rss_feed, hdl, hget, hdiff, if_neg hlen, hnl, hsv]

/-! Claim theorems about the orchestrator. -/

/-- C1 counterexample: with an empty prior snapshot (first run) and a new
feed of three entries, process_rss_feed does not return 0 or keep the
notification log empty: it notifies all three entries and returns 3. -/
theorem process_first_run_cex :
    get_rss_feed exEnv exWorld.store exUrl = Except.ok "" ∧
    (process_rss_feed exEnv exWorld exUrl).fst = Except.ok 3 ∧
    (process_rss_feed exEnv exWorld exUrl).snd.notifications =
      [exEntryA, exEntryB, exEntryC] ∧
    ¬ ((process_rss_feed exEnv exWorld exUrl).fst = Except.ok 0 ∧
       (process_rss_feed exEnv exWorld exUrl).snd.notifications = []) := by
  decide

/-- C1 (amended): when the previously persisted snapshot is the empty
string (first run), process_rss_feed performs no suppression: every entry
of the new feed is treated as new, each is notified (oldest first), the
new snapshot is persisted, and the entry count is returned. -/
theorem process_first_run_notifies_all (env : SyncEnv) (w : World) (rss_url nf key : String)
    (hdl : env.download rss_url = Except.ok nf)
    (hkey : calculate_s3_key env.hostname env.md5hex env.s3_path rss_url = Except.ok key)
    (hold : store_get w.store key = "")
    (hparse_empty : env.parse "" = [])
    (hne : env.parse nf ≠ [])
    (hids : (env.parse nf).all entry_idOk = true)
    (hnot : (env.parse nf).all env.notifyOk = true) :
    process_rss_feed env w rss_url =
      (Except.ok (env.parse nf).length,
        { store := store_put w.store key nf,
          notifications := w.notifications ++ (env.parse nf).reverse }) := by
  have hget : get_rss_feed env w.store rss_url = Except.ok "" := by
    simp only [get_rss_feed, hkey, hold]
  have hdiff : diff_rss_feeds env.parse "" nf = Except.ok (env.parse nf) := by
    have h1 : diff_rss_feeds env.parse "" nf = filter_new [] (env.parse nf) := by
      unfold diff_rss_feeds
      rw [hparse_empty]
      rfl
    rw [h1, filter_new_of_idOk [] _ hids]
    simp
  exact process_success_run env w rss_url nf "" (env.parse nf) key hdl hget hdiff hne hnot hkey

/-- Witness for the amended C1: first run of the example feed notifies its
three entries oldest-first, persists the snapshot and returns 3. -/
theorem process_first_run_notifies_all_witness :
    process_rss_feed exEnv exWorld exUrl =
      (Except.ok 3,
        { store := [(exKey, "NEW")],
          notifications := [exEntryA, exEntryB, exEntryC] }) :=
  process_first_run_notifies_all exEnv exWorld exUrl "NEW" exKey rfl (by decide) (by decide)
    (by decide) (by decide) (by decide) (by decide)

/-- C2: when process_rss_feed raises a NotifyError (some publish failed),
the snapshot is not persisted: the store is exactly what it was before the
cycle. -/
theorem process_notify_failure_no_save (env : SyncEnv) (w : World) (rss_url : String)
    (h : (process_rss_feed env w rss_url).fst = Except.error RssError.notifyError) :
    (process_rss_feed env w rss_url).snd.store = w.store := by
  rcases process_store_eq_or_ok env w rss_url with hs | ⟨n, hn⟩
  · exact hs
  · rw [hn] at h
    exact absurd h (by simp)

/-- Witness for C2: the example feed with a notifier that fails on entry B
raises NotifyError and leaves the (empty) store unchanged. -/
theorem process_notify_failure_no_save_witness :
    (process_rss_feed exEnvNotifyFail exWorld exUrl).snd.store = exWorld.store :=
  process_notify_failure_no_save exEnvNotifyFail exWorld exUrl (by decide)

/-- C3: on a cycle whose diff yields a non-empty new-entry list and whose
publishes all succeed, process_rss_feed appends exactly the reversed
(oldest-first) list to the notification log — one notify per entry — and
returns the length of the list. -/
theorem process_notify_order (env : SyncEnv) (w : World) (rss_url nf oldf : String)
    (entries : List FeedEntry) (key : String)
    (hdl : env.download rss_url = Except.ok nf)
    (hget : get_rss_feed env w.store rss_url = Except.ok oldf)
    (hdiff : diff_rss_feeds env.parse oldf nf = Except.ok entries)
    (hne : entries ≠ [])
    (hnot : entries.all env.notifyOk = true)
    (hkey : calculate_s3_key env.hostname env.md5hex env.s3_path rss_url = Except.ok key) :
    process_rss_feed env w rss_url =
      (Except.ok entries.length,
        { store := store_put w.store key nf,
          notifications := w.notifications ++ entries.reverse }) :=
  process_success_run env w rss_url nf oldf entries key hdl hget hdiff hne hnot hkey

/-- Witness for C3: against the "OLD" snapshot the example feed has the
single new entry C, which is notified once, and 1 is returned. -/
theorem process_notify_order_witness :
    process_rss_feed exEnv exWorldOld exUrl =
      (Except.ok 1,
        { store := [(exKey, "NEW"), (exKey, "OLD")],
          notifications := [exEntryC] }) :=
  process_notify_order exEnv exWorldOld exUrl "NEW" "OLD" [exEntryC] exKey rfl (by decide)
    (by decide) (by decide) (by decide) (by decide)

/-- C5: when the diff returns no new entries, process_rss_feed returns 0
and the world — in particular the persisted snapshot — is left exactly
unchanged: no save happens. -/
theorem process_no_new_entries_frame (env : SyncEnv) (w : World) (rss_url nf oldf : String)
    (hdl : env.download rss_url = Except.ok nf)
    (hget : get_rss_feed env w.store rss_url = Except.ok oldf)
    (hdiff : diff_rss_feeds env.parse oldf nf = Except.ok []) :
    process_rss_feed env w rss_url = (Except.ok 0, w) := by
  unfold process_rss_feed
  simp [hdl, hget, hdiff]

/-- Witness for C5: re-processing the already stored "NEW" snapshot yields
0 and leaves the world untouched. -/
theorem process_no_new_entries_frame_witness :
    process_rss_feed exEnv exWorldNew exUrl = (Except.ok 0, exWorldNew) :=
  process_no_new_entries_frame exEnv exWorldNew exUrl "NEW" "NEW" rfl (by decide) (by decide)

/-! Batch runner. -/

/-- The check_feeds loop started at an arbitrary accumulator adds the sum
of the per-feed counts whenever every per-feed sync succeeds. -/
theorem check_feeds_go_spec (env : SyncEnv) :
    ∀ (urls : List String) (w : World) (acc : Nat) (cs : List Nat) (w3 : World),
      spec_sync_counts env w urls = some (cs, w3) →
      check_feeds_go env w acc urls = (Except.ok (acc + cs.sum), w3) := by
  intro urls
  induction urls with
  | nil =>
    intro w acc cs w3 h
    unfold spec_sync_counts at h
    obtain ⟨rfl, rfl⟩ : cs = [] ∧ w3 = w := by
      simpa [eq_comm] using h
    simp [check_feeds_go]
  | cons url rest ih =>
    intro w acc cs w3 h
    unfold spec_sync_counts at h
    unfold check_feeds_go
    cases hp : process_rss_feed env w url with
    | mk r w2 =>
      rw [hp] at h
      cases r with
      | error e => simp at h
      | ok n =>
        simp only [] at h
        show check_feeds_go env w2 (acc + n) rest = (Except.ok (acc + cs.sum), w3)
        cases hs : spec_sync_counts env w2 rest with
        | none =>
          rw [hs] at h
          simp at h
        | some p =>
          obtain ⟨cs2, w4⟩ := p
          rw [hs] at h
          simp only [Option.some.injEq, Prod.mk.injEq] at h
          obtain ⟨h1, h2⟩ := h
          subst h1
          subst h2
          rw [ih w2 (acc + n) cs2 w4 hs]
          simp [List.sum_cons, Nat.add_assoc]

/-- C9: check_feeds over the empty URL list returns 0 without touching the
world, and over any URL list on which every per-feed sync succeeds it runs
the feeds in list order and returns the sum of the per-feed new-entry
counts. -/
theorem check_feeds_sums_counts (env : SyncEnv) (w : World) :
    check_feeds env w [] = (Except.ok 0, w) ∧
    ∀ (urls : List String) (cs : List Nat) (w3 : World),
      spec_sync_counts env w urls = some (cs, w3) →
      check_feeds env w urls = (Except.ok cs.sum, w3) := by
  constructor
  · rfl
  · intro urls cs w3 h
    unfold check_feeds
    have h2 := check_feeds_go_spec env urls w 0 cs w3 h
    simpa using h2

/-- Witness for C9: checking the example feed twice in one batch finds 3
new entries on the first pass and 0 on the second, totalling 3. -/
theorem check_feeds_sums_counts_witness :
    check_feeds exEnv exWorld [exUrl, exUrl] =
      (Except.ok 3,
        { store := [(exKey, "NEW")],
          notifications := [exEntryA, exEntryB, exEntryC] }) :=
  (check_feeds_sums_counts exEnv exWorld).2 [exUrl, exUrl] [3, 0]
    { store := [(exKey, "NEW")], notifications := [exEntryA, exEntryB, exEntryC] }
    (by decide)

end SimpleRssMailer
